import Mathlib

/-!
Verification of the AINA RAG matching engine: a shallow embedding of the
glossary normalizer (`build_dynamic_index.py`, `build_index.py`), the
variant-lookup builder, the candidate detector and the similarity searcher
(`main.py`), together with theorems settling the specification claims.
-/

namespace Aina

/-! ### Python string primitives

The Python string operations used by the service (`str.strip`,
`str.lower`, `str.split(',')`, `' '.join`, stable `list.sort`) are
modelled by structurally recursive functions so that every concrete run
of the embedding evaluates inside the kernel. -/

/-- Python `str.strip()`: drop leading and trailing whitespace. -/
def pyStrip (s : String) : String :=
  ⟨(((s.data.dropWhile Char.isWhitespace).reverse).dropWhile Char.isWhitespace).reverse⟩

/-- Python `str.lower()` (on the ASCII range exercised here). -/
def pyLower (s : String) : String := ⟨s.data.map Char.toLower⟩

/-- Splitting a character list on a separator character; the empty list
yields one empty group, as Python's `str.split(sep)` does. -/
def splitOnCharAux (c : Char) : List Char → List (List Char)
  | [] => [[]]
  | ch :: rest =>
    match splitOnCharAux c rest with
    | [] => [[]]
    | g :: gs => if ch = c then [] :: g :: gs else (ch :: g) :: gs

/-- Python `s.split(c)` for a one-character separator. -/
def pySplit (s : String) (c : Char) : List String :=
  (splitOnCharAux c s.data).map (fun l => ⟨l⟩)

/-- Python `sep.join(parts)`. -/
def pyJoin (sep : String) : List String → String
  | [] => ""
  | p :: ps => ps.foldl (fun acc q => acc ++ sep ++ q) p

/-- Insert into a sorted list, before the first element it compares
less-or-equal to; used to model Python's stable `list.sort`. -/
def insordInsert {α : Type} (le : α → α → Bool) (x : α) : List α → List α
  | [] => [x]
  | y :: ys => if le x y then x :: y :: ys else y :: insordInsert le x ys

/-- A stable sort (insertion sort), modelling Python's `list.sort(key=...)`. -/
def stableSortBy {α : Type} (le : α → α → Bool) (l : List α) : List α :=
  l.foldr (insordInsert le) []

/-- A spaCy token as consumed by `detect_candidates`: surface text, lemma,
part-of-speech tag and the punctuation/whitespace flags. -/
structure SpacyToken where
  text : String
  lemma_ : String
  pos : String
  is_punct : Bool
  is_space : Bool
deriving Repr, DecidableEq

/-- The compact record stored in the variants lookup
(`build_variants_lookup` in `main.py`). -/
structure LookupRecord where
  id : String
  terme_recomanat : String
  categoria : String
  context : String
  variant_original : String
deriving Repr, DecidableEq

/-- The variants lookup: a Python dict modelled as an association list in
insertion order; `dictGet` returns the binding written last, as dict
assignment overwrites. -/
abbrev VariantsLookup := List (String × LookupRecord)

/-- Python dict read: the last binding written for the key wins. -/
def dictGet (d : VariantsLookup) (k : String) : Option LookupRecord :=
  d.foldl (fun acc p => if p.1 = k then some p.2 else acc) none

/-- Canonical glossary entry, the metadata object built by
`prepare_glossary_for_vectorization` (and by `build_index.py` for the
CSV path). -/
structure GlossEntry where
  id : String
  terme_recomanat : String
  variants_no_normatives : List String
  context_d_us : String
  categoria : String
  ambit : String
  comentari : String
  font : String
  exemple_1 : String
  exemple_2 : String
  exemple_3 : String
  exemple_incorrecte_1 : String
  exemple_incorrecte_2 : String
deriving Repr, DecidableEq

/-- The `variants_no_normatives` field of a raw submission can be a literal
list or a comma-separated string (`build_dynamic_index.py`, lines 34-37). -/
inductive VariantsField where
  | list (vs : List String)
  | str (s : String)
deriving Repr, DecidableEq

/-- A raw glossary record as received by the dynamic index builder
(the `GlossaryTermInput` shape of `main.py`). -/
structure RawEntry where
  id : String
  terme_recomanat : String
  variants_no_normatives : VariantsField
  context_d_us : String
  categoria : String
  ambit : String
  notes_linguistiques : String
  font : String
  exemples_correctes : List String
  exemples_incorrectes : List String
deriving Repr, DecidableEq

/-- Variant-field normalization of `prepare_glossary_for_vectorization`:
a string is split on commas, items trimmed and empties dropped; a literal
list is used as-is. -/
def variantsOfRaw : VariantsField → List String
  | .list vs => vs
  | .str s => ((pySplit s ',').map pyStrip).filter (fun v => v ≠ "")

/-- `exemples_correctes[i]` stringified and stripped, or `""` when absent
(the metadata fields start as `""` and are only assigned when present). -/
def exAt (l : List String) (i : Nat) : String :=
  ((l.get? i).map pyStrip).getD ""

/-- One iteration of the loop of `prepare_glossary_for_vectorization`:
`none` when the entry is skipped (empty recommended term after trimming),
otherwise the canonical metadata object paired with the synthesized
embedding text. -/
def prepareRow (entry : RawEntry) : Option (GlossEntry × String) :=
  let terme_recomanat := pyStrip entry.terme_recomanat
  if terme_recomanat = "" then none
  else
    let variants := variantsOfRaw entry.variants_no_normatives
    let context := pyStrip entry.context_d_us
    let metadata : GlossEntry :=
      { id := entry.id
        terme_recomanat := terme_recomanat
        variants_no_normatives := variants
        context_d_us := context
        categoria := pyStrip entry.categoria
        ambit := pyStrip entry.ambit
        comentari := pyStrip entry.notes_linguistiques
        font := pyStrip entry.font
        exemple_1 := exAt entry.exemples_correctes 0
        exemple_2 := exAt entry.exemples_correctes 1
        exemple_3 := exAt entry.exemples_correctes 2
        exemple_incorrecte_1 := exAt entry.exemples_incorrectes 0
        exemple_incorrecte_2 := exAt entry.exemples_incorrectes 1 }
    let text_parts : List String :=
      [terme_recomanat] ++ variants
        ++ (entry.exemples_incorrectes.filter (fun ex => ex ≠ "")).map pyStrip
        ++ (if context ≠ "" ∧ context ≠ "nan" then [context] else [])
    some (metadata, pyJoin " " text_parts)

/-- `prepare_glossary_for_vectorization`: the canonical entry sequence and,
in parallel, the per-entry embedding texts. -/
def prepare_glossary_for_vectorization (glossary_data : List RawEntry) :
    List GlossEntry × List String :=
  let pairs := glossary_data.filterMap prepareRow
  (pairs.map Prod.fst, pairs.map Prod.snd)

/-- A CSV row as read by `build_index.py` (column values already
stringified; `str(row.get(col, ''))` of a missing column is `''`). -/
structure CsvRow where
  terme_recomanat : String
  terme_incorrecte : String
  context : String
  id : String
  categoria : String
  ambit : String
  comentari : String
  font : String
  exemple_1 : String
  exemple_2 : String
  exemple_3 : String
  exemple_incorrecte_1 : String
  exemple_incorrecte_2 : String
deriving Repr, DecidableEq

/-- One iteration of the row loop of `build_index` in `build_index.py`:
`none` when the row is skipped, otherwise the metadata entry paired with
the text to embed (recommended term, then context, then the raw
variants string). -/
def buildIndexRow (row : CsvRow) : Option (GlossEntry × String) :=
  let terme_recomanat := pyStrip row.terme_recomanat
  let terme_incorrecte := pyStrip row.terme_incorrecte
  let context := pyStrip row.context
  let id_terme := pyStrip row.id
  if terme_recomanat = "" then none
  else
    let entrada : GlossEntry :=
      { id := id_terme
        terme_recomanat := terme_recomanat
        variants_no_normatives :=
          if terme_incorrecte ≠ "" then (pySplit terme_incorrecte ',').map pyStrip
          else []
        context_d_us := context
        categoria := pyStrip row.categoria
        ambit := pyStrip row.ambit
        comentari := pyStrip row.comentari
        font := pyStrip row.font
        exemple_1 := pyStrip row.exemple_1
        exemple_2 := pyStrip row.exemple_2
        exemple_3 := pyStrip row.exemple_3
        exemple_incorrecte_1 := pyStrip row.exemple_incorrecte_1
        exemple_incorrecte_2 := pyStrip row.exemple_incorrecte_2 }
    let text_combinat := terme_recomanat
    let text_combinat :=
      if context ≠ "" ∧ context ≠ "nan" then text_combinat ++ " " ++ context
      else text_combinat
    let text_combinat :=
      if terme_incorrecte ≠ "" ∧ terme_incorrecte ≠ "nan" then
        text_combinat ++ " " ++ terme_incorrecte
      else text_combinat
    some (entrada, text_combinat)

/-- The glossary/texts preparation performed by `build_index` over the CSV
rows. -/
def buildIndexPrepare (rows : List CsvRow) : List GlossEntry × List String :=
  let pairs := rows.filterMap buildIndexRow
  (pairs.map Prod.fst, pairs.map Prod.snd)

/-- `build_variants_lookup` in `main.py`: maps each non-empty variant
string, lowercased then stripped, to a compact lookup record; later
bindings overwrite earlier ones. -/
def build_variants_lookup (glossari_data : List GlossEntry) : VariantsLookup :=
  glossari_data.foldl (fun lookup entry =>
    entry.variants_no_normatives.foldl (fun lookup variant =>
      if variant ≠ "" then
        lookup ++ [(pyStrip (pyLower variant),
          { id := entry.id
            terme_recomanat := entry.terme_recomanat
            categoria := entry.categoria
            context := entry.context_d_us
            variant_original := variant })]
      else lookup) lookup) []

/-- A detected candidate as returned by `/detect-candidates`. -/
structure DetectedCandidate where
  term : String
  lemma_ : String
  position : Nat
  context : String
  pos_tag : String
  glossary_id : String
  terme_recomanat : String
  categoria : String
  source : String
deriving Repr, DecidableEq

/-- The mutable loop state of `detect_candidates`: the claimed token
positions and the candidates accumulated so far. -/
structure DetState where
  detected : List Nat
  candidates : List DetectedCandidate
deriving Repr, DecidableEq

/-- `any(j in detected_positions for j in range(i, i + ngram_size))`. -/
def windowClaimed (detected : List Nat) (i n : Nat) : Bool :=
  (List.range n).any (fun j => detected.contains (i + j))

/-- `" ".join(t.text for t in doc[lo:hi])`. -/
def sliceText (doc : List SpacyToken) (lo hi : Nat) : String :=
  pyJoin " " (((doc.drop lo).take (hi - lo)).map (fun t => t.text))

/-- The body of the window loop of pass 1 of `detect_candidates`, for
n-gram size `n` at window start `i`. -/
def mweStep (doc : List SpacyToken) (lookup : VariantsLookup) (cw : Nat)
    (n : Nat) (st : DetState) (i : Nat) : DetState :=
  if windowClaimed st.detected i n then st
  else
    let ngram_text := pyJoin " " (((doc.drop i).take n).map (fun t => t.text))
    let ngram_lower := (pyLower ngram_text)
    match dictGet lookup ngram_lower with
    | none => st
    | some entry =>
      let start_ctx := i - cw
      let end_ctx := min doc.length (i + n + cw)
      { detected := st.detected ++ (List.range n).map (fun j => i + j)
        candidates := st.candidates ++
          [{ term := ngram_text
             lemma_ := ngram_lower
             position := i
             context := sliceText doc start_ctx end_ctx
             pos_tag := "MWE"
             glossary_id := entry.id
             terme_recomanat := entry.terme_recomanat
             categoria := entry.categoria
             source := "nlp" }] }

/-- Pass 1 of `detect_candidates`: n-gram sizes 4, 3, 2 in that order,
sliding each window over the token positions. -/
def mwePass (doc : List SpacyToken) (lookup : VariantsLookup) (cw : Nat)
    (st : DetState) : DetState :=
  [4, 3, 2].foldl (fun st n =>
    (List.range (doc.length + 1 - n)).foldl (mweStep doc lookup cw n) st) st

/-- The body of the token loop of pass 2 of `detect_candidates`, for the
token at position `i`. -/
def tokenStep (doc : List SpacyToken) (lookup : VariantsLookup) (cw : Nat)
    (st : DetState) (i : Nat) (token : SpacyToken) : DetState :=
  if st.detected.contains i then st
  else if token.is_punct || token.is_space then st
  else
    let lemma_ := (pyLower token.lemma_)
    let token_lower := (pyLower token.text)
    let hit : Option (LookupRecord × String) :=
      match dictGet lookup lemma_ with
      | some e => some (e, lemma_)
      | none =>
        match dictGet lookup token_lower with
        | some e => some (e, token_lower)
        | none => none
    match hit with
    | none => st
    | some (match_entry, matched_form) =>
      let start_ctx := i - cw
      let end_ctx := min doc.length (i + 1 + cw)
      { detected := st.detected ++ [i]
        candidates := st.candidates ++
          [{ term := token.text
             lemma_ := matched_form
             position := i
             context := sliceText doc start_ctx end_ctx
             pos_tag := token.pos
             glossary_id := match_entry.id
             terme_recomanat := match_entry.terme_recomanat
             categoria := match_entry.categoria
             source := "nlp" }] }

/-- Pass 2 of `detect_candidates`: `for i, token in enumerate(doc)`. -/
def tokenPass (doc : List SpacyToken) (lookup : VariantsLookup) (cw : Nat)
    (st : DetState) : DetState :=
  doc.enum.foldl (fun st p => tokenStep doc lookup cw st p.1 p.2) st

/-- `detect_candidates` on an already-tokenized text: both passes, then a
stable sort of the candidates by starting position. -/
def detect_candidates (doc : List SpacyToken) (lookup : VariantsLookup)
    (context_window : Nat) : List DetectedCandidate :=
  let st := mwePass doc lookup context_window ⟨[], []⟩
  let st := tokenPass doc lookup context_window st
  stableSortBy (fun a b => Nat.ble a.position b.position) st.candidates

/-- One glossary match returned by `/search`; similarity scores are
modelled as exact rationals. -/
structure MatchResult where
  id : String
  terme_recomanat : String
  similitud : ℚ
  context : String
  variants : List String
  categoria : String
  ambit : String
  comentari : String
  font : String
  exemple_1 : String
  exemple_2 : String
  exemple_3 : String
  exemple_incorrecte_1 : String
  exemple_incorrecte_2 : String
deriving Repr, DecidableEq

/-- The `MatchResult` constructed by `search` from a resolved canonical
entry and a similarity score. -/
def mkMatch (entry : GlossEntry) (score : ℚ) : MatchResult :=
  { id := entry.id
    terme_recomanat := entry.terme_recomanat
    similitud := score
    context := entry.context_d_us
    variants := entry.variants_no_normatives
    categoria := entry.categoria
    ambit := entry.ambit
    comentari := entry.comentari
    font := entry.font
    exemple_1 := entry.exemple_1
    exemple_2 := entry.exemple_2
    exemple_3 := entry.exemple_3
    exemple_incorrecte_1 := entry.exemple_incorrecte_1
    exemple_incorrecte_2 := entry.exemple_incorrecte_2 }

/-- The inner loop of `search` for one candidate: `for j in range(k)`,
reading the neighbor slot `(idx, score)` at column `j` of the FAISS result
row. Out-of-range accesses (a row shorter than `k`, or a non-negative
neighbor position outside the canonical store) model Python's
`IndexError` as `none`. A negative `idx` is the FAISS sentinel and is
skipped; a score below the threshold is skipped. -/
def searchCandidateMatches (glossari : List GlossEntry) (threshold : ℚ)
    (k : Nat) (row : List (Int × ℚ)) : Option (List MatchResult) :=
  (List.range k).foldlM (fun ms j =>
    match row.get? j with
    | none => none
    | some (idx, score) =>
      if idx < 0 then some ms
      else if threshold ≤ score then
        match glossari.get? idx.toNat with
        | none => none
        | some entry => some (ms ++ [mkMatch entry score])
      else some ms) []

/-- One `/search` result: the original candidate string and its matches. -/
structure SearchResult where
  original : String
  matches_ : List MatchResult
deriving Repr, DecidableEq

/-- The per-candidate loop of `search`: `for i, candidate in
enumerate(request.candidates)`, pairing each candidate with its FAISS
result row. -/
def searchResults (glossari : List GlossEntry) (threshold : ℚ) (k : Nat)
    (candidates : List String) (rows : List (List (Int × ℚ))) :
    Option (List SearchResult) :=
  candidates.enum.foldlM (fun results p =>
    match rows.get? p.1 with
    | none => none
    | some row =>
      (searchCandidateMatches glossari threshold k row).map
        (fun ms => results ++ [{ original := p.2, matches_ := ms }])) []

/-- An HTTP error raised by an endpoint (`HTTPException`). -/
structure HttpError where
  status : Nat
  detail : String
deriving Repr, DecidableEq

/-- The FAISS index is opaque: modelled as the search function it provides,
`(query strings, k) -> one row of (position, score) pairs per query`. -/
abbrev IndexModel := List String → Nat → List (List (Int × ℚ))

/-- The `/search` endpoint: readiness guards (`if not model`, `if not index
or not glossari` — a `None` or empty canonical store is rejected the same
way), then the batch search. -/
def searchEndpoint (model_loaded : Bool) (index : Option IndexModel)
    (glossari : Option (List GlossEntry)) (candidates : List String)
    (k : Nat) (threshold : ℚ) : Except HttpError (Option (List SearchResult)) :=
  if !model_loaded then
    .error { status := 503
             detail := "Model no carregat. El servei no està inicialitzat correctament." }
  else
    match index, glossari with
    | some ix, some gl =>
      if gl.isEmpty then
        .error { status := 503
                 detail := "Índex no disponible. Utilitzeu l'endpoint /vectorize per crear l'índex primer." }
      else
        .ok (searchResults gl threshold k candidates (ix candidates k))
    | _, _ =>
      .error { status := 503
               detail := "Índex no disponible. Utilitzeu l'endpoint /vectorize per crear l'índex primer." }

/-- The result object of `/detect-candidates`. -/
structure DetectCandidatesResult where
  success : Bool
  candidates : List DetectedCandidate
  error : Option String
deriving Repr, DecidableEq

/-- The `/detect-candidates` endpoint: readiness guards (`if not
nlp_model`, `if not variants_lookup` — a `None` lemmatizer, and a `None`
or empty lookup, are rejected with 503), then the two detection passes.
The lemmatizer is the opaque tokenization function `text -> tokens`. -/
def detectEndpoint (nlp_model : Option (String → List SpacyToken))
    (variants_lookup : Option VariantsLookup) (text : String)
    (context_window : Nat) : Except HttpError DetectCandidatesResult :=
  match nlp_model with
  | none =>
    .error { status := 503
             detail := "Model NLP no carregat. Instal·leu: python -m spacy download ca_core_news_trf" }
  | some nlp =>
    match variants_lookup with
    | none =>
      .error { status := 503
               detail := "Lookup de variants no disponible. Vectoritzeu el glossari primer." }
    | some lookup =>
      if lookup.isEmpty then
        .error { status := 503
                 detail := "Lookup de variants no disponible. Vectoritzeu el glossari primer." }
      else
        .ok { success := true
              candidates := detect_candidates (nlp text) lookup context_window
              error := none }

/-- The global service state published to readers: the FAISS index, the
canonical entry store and the variants lookup (plus the texts the index
was built from, standing in for the opaque vectors). -/
structure ServiceState where
  index : Option (List String)
  glossari : Option (List GlossEntry)
  variants_lookup : Option VariantsLookup
deriving Repr, DecidableEq

/-- `build_index_from_data` in `build_dynamic_index.py`: prepares the
glossary; with zero valid entries it returns the structured failure
`{success: False, error: "No valid glossary entries to vectorize"}`;
otherwise it persists and returns the new canonical entries and texts.
The embedding/index construction itself is opaque and order-preserving. -/
def build_index_from_data (glossary_data : List RawEntry) :
    Except String (List GlossEntry × List String) :=
  let prepared := prepare_glossary_for_vectorization glossary_data
  if prepared.1.length = 0 then
    .error "No valid glossary entries to vectorize"
  else
    .ok prepared

/-- The three publish assignments at the end of `vectorize` in `main.py`,
in program order: `index = faiss.read_index(...)`, `glossari =
pickle.load(...)`, `variants_lookup = build_variants_lookup(glossari)`.
Each is an independent update of one global. -/
def publishAssignments (glossari : List GlossEntry) (texts : List String) :
    List (ServiceState → ServiceState) :=
  [ fun st => { st with index := some texts },
    fun st => { st with glossari := some glossari },
    fun st => { st with variants_lookup := some (build_variants_lookup glossari) } ]

/-- The states a reader interleaved with the publish sequence can observe:
the state before, after one, after two and after all three assignments. -/
def publishTrace (st : ServiceState) (glossari : List GlossEntry)
    (texts : List String) : List ServiceState :=
  (publishAssignments glossari texts).scanl (fun s f => f s) st

/-- The `/vectorize` endpoint as a state transition: HTTP 400 on an empty
request, HTTP 500 (state unchanged) when `build_index_from_data` reports
failure, otherwise the three publish assignments are applied in order and
the entry/variant counts are returned. -/
def vectorize (st : ServiceState) (glossary_data : List RawEntry) :
    ServiceState × Except HttpError (Nat × Nat) :=
  if glossary_data.isEmpty then
    (st, .error { status := 400, detail := "No glossary data provided" })
  else
    match build_index_from_data glossary_data with
    | .error msg =>
      (st, .error { status := 500, detail := "Vectorization failed: " ++ msg })
    | .ok (glossari, texts) =>
      ((publishAssignments glossari texts).foldl (fun s f => f s) st,
       .ok (glossari.length, (build_variants_lookup glossari).length))

/-! ### Helper lemmas -/

/-- Membership after a `foldl` whose step either keeps the accumulator's
elements or adds elements satisfying `P`. -/
theorem mem_foldl_of_step {α β : Type} {P : α → β → Prop} (f : List β → α → List β)
    (hf : ∀ acc x p, p ∈ f acc x → p ∈ acc ∨ P x p) :
    ∀ (l : List α) (acc : List β) (p : β), p ∈ l.foldl f acc →
      p ∈ acc ∨ ∃ x ∈ l, P x p := by
  intro l
  induction l with
  | nil => intro acc p h; exact Or.inl h
  | cons x xs ih =>
    intro acc p h
    rcases ih (f acc x) p h with h' | ⟨y, hy, hP⟩
    · rcases hf acc x p h' with h'' | hP
      · exact Or.inl h''
      · exact Or.inr ⟨x, List.mem_cons_self x xs, hP⟩
    · exact Or.inr ⟨y, List.mem_cons_of_mem x hy, hP⟩

/-- An invariant preserved by each step of a `foldl` holds of its result. -/
theorem foldl_preserve {α β : Type} {P : β → Prop} (f : β → α → β)
    (hstep : ∀ b a, P b → P (f b a)) :
    ∀ (l : List α) (b : β), P b → P (l.foldl f b) := by
  intro l
  induction l with
  | nil => intro b hb; exact hb
  | cons x xs ih => intro b hb; exact ih (f b x) (hstep b x hb)

/-- Every binding of the variants lookup comes from a non-empty variant of
one of the canonical entries, with the key being that variant lowercased
and stripped and the record copying the entry's fields. -/
theorem mem_build_variants_lookup {gd : List GlossEntry}
    {p : String × LookupRecord} (h : p ∈ build_variants_lookup gd) :
    ∃ e ∈ gd, ∃ v ∈ e.variants_no_normatives, v ≠ "" ∧
      p = (pyStrip (pyLower v),
        { id := e.id, terme_recomanat := e.terme_recomanat,
          categoria := e.categoria, context := e.context_d_us,
          variant_original := v }) := by
  have inner : ∀ (e : GlossEntry) (acc : VariantsLookup) (p' : String × LookupRecord),
      p' ∈ e.variants_no_normatives.foldl (fun lookup variant =>
        if variant ≠ "" then
          lookup ++ [(pyStrip (pyLower variant),
            { id := e.id, terme_recomanat := e.terme_recomanat,
              categoria := e.categoria, context := e.context_d_us,
              variant_original := variant })]
        else lookup) acc →
      p' ∈ acc ∨ ∃ v ∈ e.variants_no_normatives, v ≠ "" ∧
        p' = (pyStrip (pyLower v),
          { id := e.id, terme_recomanat := e.terme_recomanat,
            categoria := e.categoria, context := e.context_d_us,
            variant_original := v }) := by
    intro e acc p' hmem
    refine mem_foldl_of_step
      (P := fun (v : String) (p' : String × LookupRecord) =>
        v ≠ "" ∧ p' = (pyStrip (pyLower v),
          { id := e.id, terme_recomanat := e.terme_recomanat,
            categoria := e.categoria, context := e.context_d_us,
            variant_original := v }))
      _ ?_ _ acc p' hmem
    intro acc' v q hq
    by_cases hv : v ≠ ""
    · rw [if_pos hv] at hq
      rcases List.mem_append.mp hq with h' | h'
      · exact Or.inl h'
      · simp only [List.mem_singleton] at h'
        exact Or.inr ⟨hv, h'⟩
    · rw [if_neg hv] at hq
      exact Or.inl hq
  have outer := mem_foldl_of_step
    (P := fun (e : GlossEntry) (p' : String × LookupRecord) =>
      ∃ v ∈ e.variants_no_normatives, v ≠ "" ∧
        p' = (pyStrip (pyLower v),
          { id := e.id, terme_recomanat := e.terme_recomanat,
            categoria := e.categoria, context := e.context_d_us,
            variant_original := v }))
    _ (fun acc e q hq => inner e acc q hq) gd [] p h
  rcases outer with h' | h'
  · simp at h'
  · exact h'

/-- An entry produced by `prepareRow` has a non-empty recommended term,
and its fields are the trimmed raw fields. -/
theorem prepareRow_some {entry : RawEntry} {e : GlossEntry} {t : String}
    (h : prepareRow entry = some (e, t)) :
    e.terme_recomanat = pyStrip entry.terme_recomanat ∧ e.terme_recomanat ≠ "" := by
  unfold prepareRow at h
  by_cases hne : pyStrip entry.terme_recomanat = ""
  · simp [hne] at h
  · simp only [hne, if_neg, not_false_iff, Option.some.injEq, Prod.mk.injEq] at h
    obtain ⟨he, _⟩ := h
    subst he
    exact ⟨rfl, hne⟩

/-- An entry produced by `buildIndexRow` has a non-empty recommended term. -/
theorem buildIndexRow_some {row : CsvRow} {e : GlossEntry} {t : String}
    (h : buildIndexRow row = some (e, t)) :
    e.terme_recomanat = pyStrip row.terme_recomanat ∧ e.terme_recomanat ≠ "" := by
  unfold buildIndexRow at h
  by_cases hne : pyStrip row.terme_recomanat = ""
  · simp [hne] at h
  · simp only [hne, if_neg, not_false_iff, Option.some.injEq, Prod.mk.injEq] at h
    obtain ⟨he, _⟩ := h
    subst he
    exact ⟨rfl, hne⟩

/-! ### Claims -/

/-- C4: entries whose recommended term is empty after trimming are skipped
by both normalizers, so no canonical-store entry has an empty
`terme_recomanat`, and no variant-lookup record built from a canonical
store carries an empty recommended term. -/
theorem C4_no_empty_recommended_term :
    (∀ (glossary_data : List RawEntry),
      ∀ e ∈ (prepare_glossary_for_vectorization glossary_data).1,
        e.terme_recomanat ≠ "") ∧
    (∀ (rows : List CsvRow),
      ∀ e ∈ (buildIndexPrepare rows).1, e.terme_recomanat ≠ "") ∧
    (∀ (gd : List GlossEntry), (∀ e ∈ gd, e.terme_recomanat ≠ "") →
      ∀ p ∈ build_variants_lookup gd, p.2.terme_recomanat ≠ "") := by
  refine ⟨?_, ?_, ?_⟩
  · intro glossary_data e he
    simp only [prepare_glossary_for_vectorization, List.mem_map,
      List.mem_filterMap] at he
    obtain ⟨⟨e', t⟩, ⟨raw, _, hrow⟩, hfst⟩ := he
    cases hfst
    exact (prepareRow_some hrow).2
  · intro rows e he
    simp only [buildIndexPrepare, List.mem_map, List.mem_filterMap] at he
    obtain ⟨⟨e', t⟩, ⟨row, _, hrow⟩, hfst⟩ := he
    cases hfst
    exact (buildIndexRow_some hrow).2
  · intro gd hgd p hp
    obtain ⟨e, he, v, _, _, hpeq⟩ := mem_build_variants_lookup hp
    subst hpeq
    exact hgd e he

/-- A raw entry whose variants arrive as a literal list holding a
whitespace-only item. -/
def rawListVariant : RawEntry :=
  { id := "x1"
    terme_recomanat := "a"
    variants_no_normatives := .list [" b ", " ", ""]
    context_d_us := ""
    categoria := ""
    ambit := ""
    notes_linguistiques := ""
    font := ""
    exemples_correctes := []
    exemples_incorrectes := [] }

/-- A CSV row whose variant string has trailing commas, so the comma
split has empty pieces. -/
def csvCommaRow : CsvRow :=
  { terme_recomanat := "a"
    terme_incorrecte := "c,,"
    context := ""
    id := ""
    categoria := ""
    ambit := ""
    comentari := ""
    font := ""
    exemple_1 := ""
    exemple_2 := ""
    exemple_3 := ""
    exemple_incorrecte_1 := ""
    exemple_incorrecte_2 := "" }

/-- C6 counterexample: when the variants arrive as a literal list, the
dynamic normalizer keeps the list verbatim, so untrimmed, whitespace-only
and empty items survive into the canonical store; and when a
comma-separated variant string reaches the CSV builder, empty pieces of
the split survive as empty stored variants — refuting, on both input
shapes, the claim that normalization yields only trimmed, non-empty
strings. -/
theorem C6_counterexample :
    (prepare_glossary_for_vectorization [rawListVariant]).1.map
        (fun e => e.variants_no_normatives) = [[" b ", " ", ""]] ∧
    pyStrip (" b " : String) ≠ " b " ∧ pyStrip (" " : String) = "" ∧
    (buildIndexPrepare [csvCommaRow]).1.map
        (fun e => e.variants_no_normatives) = [["c", "", ""]] ∧
    ("" : String) ∈ (["c", "", ""] : List String) := by
  refine ⟨rfl, ?_, rfl, rfl, by decide⟩
  decide

/-- C6 as amended: only the comma-separated-string shape is normalized by
the dynamic builder (items trimmed, empties dropped); a literal list is
passed through unchanged; and the CSV builder stores, for a non-empty
variant string, exactly the comma-split pieces each trimmed — empty
pieces included — and the empty list for an empty string. -/
theorem C6_amended_variant_normalization :
    (∀ s : String, ∀ v ∈ variantsOfRaw (.str s),
      v ≠ "" ∧ ∃ w ∈ pySplit s ',', v = pyStrip w) ∧
    (∀ vs : List String, variantsOfRaw (.list vs) = vs) ∧
    (∀ (row : CsvRow) (e : GlossEntry) (t : String),
      buildIndexRow row = some (e, t) →
      e.variants_no_normatives =
        if pyStrip row.terme_incorrecte ≠ ""
        then (pySplit (pyStrip row.terme_incorrecte) ',').map pyStrip
        else []) := by
  refine ⟨?_, fun vs => rfl, ?_⟩
  · intro s v hv
    simp only [variantsOfRaw, List.mem_filter, List.mem_map] at hv
    obtain ⟨⟨w, hw, hvw⟩, hne⟩ := hv
    refine ⟨by simpa using hne, w, hw, hvw.symm⟩
  · intro row e t h
    unfold buildIndexRow at h
    by_cases hne : pyStrip row.terme_recomanat = ""
    · simp [hne] at h
    · simp only [hne, if_neg, not_false_iff, Option.some.injEq, Prod.mk.injEq] at h
      obtain ⟨he, _⟩ := h
      subst he
      rfl

/-- A CSV row with a recommended term, a context and a variant string. -/
def csvDemoRow : CsvRow :=
  { terme_recomanat := "a"
    terme_incorrecte := "c"
    context := "b"
    id := ""
    categoria := ""
    ambit := ""
    comentari := ""
    font := ""
    exemple_1 := ""
    exemple_2 := ""
    exemple_3 := ""
    exemple_incorrecte_1 := ""
    exemple_incorrecte_2 := "" }

/-- The canonical entry `buildIndexRow` produces from `csvDemoRow`. -/
def csvDemoEntry : GlossEntry :=
  { id := ""
    terme_recomanat := "a"
    variants_no_normatives := ["c"]
    context_d_us := "b"
    categoria := ""
    ambit := ""
    comentari := ""
    font := ""
    exemple_1 := ""
    exemple_2 := ""
    exemple_3 := ""
    exemple_incorrecte_1 := ""
    exemple_incorrecte_2 := "" }

/-- The canonical entry `buildIndexRow` produces from `csvCommaRow`: the
empty split pieces are stored. -/
def csvCommaEntry : GlossEntry :=
  { id := ""
    terme_recomanat := "a"
    variants_no_normatives := ["c", "", ""]
    context_d_us := ""
    categoria := ""
    ambit := ""
    comentari := ""
    font := ""
    exemple_1 := ""
    exemple_2 := ""
    exemple_3 := ""
    exemple_incorrecte_1 := ""
    exemple_incorrecte_2 := "" }

/-- C6 witness: the amended normalization facts evaluated at concrete
inputs — in particular the CSV equation applied to `csvCommaRow`, whose
stored variants keep the two empty split pieces. -/
theorem C6_amended_witness :
    (("x" : String) ≠ "" ∧
      ∃ w ∈ pySplit "ab, x ,, " ',', ("x" : String) = pyStrip w) ∧
    (csvDemoEntry.variants_no_normatives =
      if pyStrip csvDemoRow.terme_incorrecte ≠ ""
      then (pySplit (pyStrip csvDemoRow.terme_incorrecte) ',').map pyStrip
      else []) ∧
    (csvCommaEntry.variants_no_normatives =
      if pyStrip csvCommaRow.terme_incorrecte ≠ ""
      then (pySplit (pyStrip csvCommaRow.terme_incorrecte) ',').map pyStrip
      else []) ∧
    csvCommaEntry.variants_no_normatives = ["c", "", ""] := by
  refine ⟨?_, ?_, ?_, by decide⟩
  · exact C6_amended_variant_normalization.1 "ab, x ,, " "x" (by decide)
  · exact C6_amended_variant_normalization.2.2 csvDemoRow csvDemoEntry "a b c" (by decide)
  · exact C6_amended_variant_normalization.2.2 csvCommaRow csvCommaEntry "a c,," (by decide)

/-- A canonical entry whose variant list holds a capitalized variant. -/
def conformenEntry : GlossEntry :=
  { id := "g1"
    terme_recomanat := "formar"
    variants_no_normatives := ["Conformen"]
    context_d_us := ""
    categoria := "verb"
    ambit := ""
    comentari := ""
    font := ""
    exemple_1 := ""
    exemple_2 := ""
    exemple_3 := ""
    exemple_incorrecte_1 := ""
    exemple_incorrecte_2 := "" }

/-- A canonical entry with two variants that collide on their lowercase
form. -/
def collidingEntry : GlossEntry :=
  { id := "g2"
    terme_recomanat := "bona"
    variants_no_normatives := ["Foo", "fOO"]
    context_d_us := ""
    categoria := ""
    ambit := ""
    comentari := ""
    font := ""
    exemple_1 := ""
    exemple_2 := ""
    exemple_3 := ""
    exemple_incorrecte_1 := ""
    exemple_incorrecte_2 := "" }

/-- C7: the variant lookup is keyed by the lowercased, stripped variant
string; a lookup through the detector's lowercasing is therefore
case-insensitive (inserting "Conformen" makes "conformen" and "CONFORMEN"
resolve to the same record), and when two variants collide on the same
key, the binding written last wins. -/
theorem C7_lookup_keys_lowercased_last_wins :
    (∀ (gd : List GlossEntry), ∀ p ∈ build_variants_lookup gd,
      p.1 = pyStrip (pyLower p.2.variant_original)) ∧
    (∀ (lk : VariantsLookup) (key : String) (r : LookupRecord),
      dictGet (lk ++ [(key, r)]) key = some r) ∧
    (dictGet (build_variants_lookup [conformenEntry]) (pyLower "conformen") =
        dictGet (build_variants_lookup [conformenEntry]) (pyLower "CONFORMEN") ∧
      dictGet (build_variants_lookup [conformenEntry]) (pyLower "Conformen") =
        some { id := "g1", terme_recomanat := "formar", categoria := "verb",
               context := "", variant_original := "Conformen" }) ∧
    ((dictGet (build_variants_lookup [collidingEntry]) "foo").map
        (fun r => r.variant_original) = some "fOO") := by
  refine ⟨?_, ?_, ⟨by decide, by decide⟩, by decide⟩
  · intro gd p hp
    obtain ⟨e, _, v, _, _, hpeq⟩ := mem_build_variants_lookup hp
    subst hpeq
    rfl
  · intro lk key r
    rw [dictGet, List.foldl_append]
    simp [dictGet]

/-- The synthesized embedding text as the specification describes it:
recommended term, then all variants, then all incorrect examples, then
the usage context (skipped when it equals the null-like placeholder). -/
def specSynthesizedText (e : GlossEntry) : String :=
  pyJoin " " ([e.terme_recomanat] ++ e.variants_no_normatives
    ++ ([e.exemple_incorrecte_1, e.exemple_incorrecte_2].filter (fun x => x ≠ ""))
    ++ (if e.context_d_us ≠ "" ∧ e.context_d_us ≠ "nan" then [e.context_d_us] else []))

/-- C5 counterexample: for the CSV builder, a row with recommended term
"a", usage context "b" and variant string "c" is embedded from the text
"a b c" (term, then context, then variants) — not "a c b" as the claimed
order (term, variants, incorrect examples, context) would produce. -/
theorem C5_counterexample :
    (buildIndexPrepare [csvDemoRow]).2 = ["a b c"] ∧
    ((buildIndexPrepare [csvDemoRow]).1.map specSynthesizedText) = ["a c b"] ∧
    ("a b c" : String) ≠ "a c b" := by
  refine ⟨rfl, rfl, by decide⟩

/-- C5 as amended: the dynamic builder synthesizes the text in the claimed
order — recommended term, variants, the non-empty incorrect examples
(stripped), then the context unless empty or "nan" — while the CSV
builder concatenates recommended term, then context, then the raw variant
string (each skipped when empty or "nan") and includes no incorrect
examples. -/
theorem C5_amended_embedding_text :
    (∀ (entry : RawEntry) (e : GlossEntry) (t : String),
      prepareRow entry = some (e, t) →
      t = pyJoin " " ([e.terme_recomanat] ++ e.variants_no_normatives
        ++ (entry.exemples_incorrectes.filter (fun ex => ex ≠ "")).map pyStrip
        ++ (if e.context_d_us ≠ "" ∧ e.context_d_us ≠ "nan"
            then [e.context_d_us] else []))) ∧
    (∀ (row : CsvRow) (e : GlossEntry) (t : String),
      buildIndexRow row = some (e, t) →
      t = e.terme_recomanat
        ++ (if e.context_d_us ≠ "" ∧ e.context_d_us ≠ "nan"
            then " " ++ e.context_d_us else "")
        ++ (if pyStrip row.terme_incorrecte ≠ "" ∧ pyStrip row.terme_incorrecte ≠ "nan"
            then " " ++ pyStrip row.terme_incorrecte else "")) := by
  constructor
  · intro entry e t h
    unfold prepareRow at h
    by_cases hne : pyStrip entry.terme_recomanat = ""
    · simp [hne] at h
    · simp only [hne, if_neg, not_false_iff, Option.some.injEq, Prod.mk.injEq] at h
      obtain ⟨he, ht⟩ := h
      subst he
      subst ht
      rfl
  · intro row e t h
    unfold buildIndexRow at h
    by_cases hne : pyStrip row.terme_recomanat = ""
    · simp [hne] at h
    · simp only [hne, if_neg, not_false_iff, Option.some.injEq, Prod.mk.injEq] at h
      obtain ⟨he, ht⟩ := h
      subst he
      subst ht
      dsimp only
      split_ifs <;>
        simp_all [String.append_assoc, String.append_empty]

/-- A raw entry exercising every part of the synthesized text. -/
def rawFull : RawEntry :=
  { id := "g9"
    terme_recomanat := " a "
    variants_no_normatives := .str "b1, b2"
    context_d_us := "ctx"
    categoria := ""
    ambit := ""
    notes_linguistiques := ""
    font := ""
    exemples_correctes := []
    exemples_incorrectes := ["bad1", ""] }

/-- The canonical entry `prepareRow` produces from `rawFull`. -/
def rawFullEntry : GlossEntry :=
  { id := "g9"
    terme_recomanat := "a"
    variants_no_normatives := ["b1", "b2"]
    context_d_us := "ctx"
    categoria := ""
    ambit := ""
    comentari := ""
    font := ""
    exemple_1 := ""
    exemple_2 := ""
    exemple_3 := ""
    exemple_incorrecte_1 := "bad1"
    exemple_incorrecte_2 := "" }

/-- C5 witness: the amended text-order facts evaluated on `rawFull` and
`csvDemoRow`. -/
theorem C5_amended_witness :
    ("a b1 b2 bad1 ctx" : String) =
      pyJoin " " ([rawFullEntry.terme_recomanat] ++ rawFullEntry.variants_no_normatives
        ++ (rawFull.exemples_incorrectes.filter (fun ex => ex ≠ "")).map pyStrip
        ++ (if rawFullEntry.context_d_us ≠ "" ∧ rawFullEntry.context_d_us ≠ "nan"
            then [rawFullEntry.context_d_us] else [])) ∧
    ("a b c" : String) =
      csvDemoEntry.terme_recomanat
        ++ (if csvDemoEntry.context_d_us ≠ "" ∧ csvDemoEntry.context_d_us ≠ "nan"
            then " " ++ csvDemoEntry.context_d_us else "")
        ++ (if pyStrip csvDemoRow.terme_incorrecte ≠ "" ∧
              pyStrip csvDemoRow.terme_incorrecte ≠ "nan"
            then " " ++ pyStrip csvDemoRow.terme_incorrecte else "") := by
  constructor
  · exact C5_amended_embedding_text.1 rawFull rawFullEntry "a b1 b2 bad1 ctx" (by decide)
  · exact C5_amended_embedding_text.2 csvDemoRow csvDemoEntry "a b c" (by decide)

/-- The neighbor filter of `search` as a per-slot function: a slot
produces a match exactly when its position is non-negative and its score
reaches the threshold, and the match resolves the canonical entry at that
position. -/
def keptNeighbor (glossari : List GlossEntry) (threshold : ℚ)
    (p : Int × ℚ) : Option MatchResult :=
  if 0 ≤ p.1 ∧ threshold ≤ p.2
  then (glossari.get? p.1.toNat).map (fun e => mkMatch e p.2)
  else none

/-- Unrolling the neighbor loop of `search`: over the first `m` slots the
fold accumulates exactly the kept neighbors. -/
theorem searchFold_eq (glossari : List GlossEntry) (threshold : ℚ)
    (row : List (Int × ℚ))
    (hrange : ∀ p ∈ row, 0 ≤ p.1 → p.1.toNat < glossari.length) :
    ∀ m, m ≤ row.length → ∀ acc : List MatchResult,
      (List.range m).foldlM (fun ms j =>
        match row.get? j with
        | none => none
        | some (idx, score) =>
          if idx < 0 then some ms
          else if threshold ≤ score then
            match glossari.get? idx.toNat with
            | none => none
            | some entry => some (ms ++ [mkMatch entry score])
          else some ms) acc =
      some (acc ++ (row.take m).filterMap (keptNeighbor glossari threshold)) := by
  intro m
  induction m with
  | zero => intro _ acc; simp
  | succ m ih =>
    intro hm acc
    rw [List.range_succ, List.foldlM_append, ih (Nat.le_of_succ_le hm) acc]
    obtain ⟨p, hp⟩ : ∃ p, row.get? m = some p :=
      ⟨_, List.get?_eq_get (Nat.lt_of_succ_le hm)⟩
    have hmem : p ∈ row := List.get?_mem hp
    have hp' : row[m]? = some p := by
      rw [← List.get?_eq_getElem?]
      exact hp
    have htake : row.take (m + 1) = row.take m ++ [p] := by
      rw [List.take_succ, hp']
      rfl
    rw [htake, List.filterMap_append]
    obtain ⟨idx, score⟩ := p
    by_cases hidx : idx < 0
    · have hf : keptNeighbor glossari threshold (idx, score) = none := by
        simp [keptNeighbor, not_le.mpr hidx]
      simp [hp', hidx, hf]
    · have hpos : 0 ≤ idx := not_lt.mp hidx
      by_cases hsc : threshold ≤ score
      · obtain ⟨entry, hentry⟩ : ∃ e, glossari.get? idx.toNat = some e :=
          ⟨_, List.get?_eq_get (hrange _ hmem hpos)⟩
        have hentry' : glossari[idx.toNat]? = some entry := by
          rw [← List.get?_eq_getElem?]
          exact hentry
        have hf : keptNeighbor glossari threshold (idx, score) =
            some (mkMatch entry score) := by
          simp only [keptNeighbor, hpos, hsc, and_self, if_pos, hentry,
            Option.map_some]
          simp [hentry]
        simp [hp', hidx, hsc, hentry', hf]
      · have hf : keptNeighbor glossari threshold (idx, score) = none := by
          simp [keptNeighbor, hsc]
        simp [hp', hidx, hsc, hf]

/-- C3: a returned neighbor is kept exactly when its score is at least the
threshold (inclusive boundary) and its returned position is non-negative;
a negative sentinel position is skipped without emitting a match, and each
kept neighbor's entry is resolved from the canonical store at that
position. -/
theorem C3_threshold_inclusive_sentinel_skipped
    (glossari : List GlossEntry) (threshold : ℚ) (k : Nat)
    (row : List (Int × ℚ)) (hlen : row.length = k)
    (hrange : ∀ p ∈ row, 0 ≤ p.1 → p.1.toNat < glossari.length) :
    searchCandidateMatches glossari threshold k row =
      some (row.filterMap (keptNeighbor glossari threshold)) := by
  subst hlen
  unfold searchCandidateMatches
  rw [searchFold_eq glossari threshold row hrange row.length (le_refl _) []]
  simp

/-- The canonical store used by the C3 witness. -/
def demoGloss : List GlossEntry := [conformenEntry, collidingEntry]

/-- A FAISS result row exercising the inclusive boundary (score exactly
0.80), a just-below score, the negative sentinel, and a kept neighbor. -/
def demoRow : List (Int × ℚ) := [(0, 4/5), (1, 79/100), (-1, 99/100), (1, 9/10)]

/-- C3 witness: the neighbor-filter characterization evaluated on a
concrete row; the slot at exactly the threshold is kept, the slot just
below and the sentinel are dropped. -/
theorem C3_witness :
    searchCandidateMatches demoGloss (4/5) 4 demoRow =
      some (demoRow.filterMap (keptNeighbor demoGloss (4/5))) ∧
    demoRow.filterMap (keptNeighbor demoGloss (4/5)) =
      [mkMatch conformenEntry (4/5), mkMatch collidingEntry (9/10)] := by
  constructor
  · exact C3_threshold_inclusive_sentinel_skipped demoGloss (4/5) 4 demoRow
      (by decide) (by decide)
  · simp only [demoRow, demoGloss, keptNeighbor, List.filterMap]
    norm_num

/-- The lookup record that `build_variants_lookup` builds from
`conformenEntry`'s variant "Conformen". -/
def conformenRecord : LookupRecord :=
  { id := "g1"
    terme_recomanat := "formar"
    categoria := "verb"
    context := ""
    variant_original := "Conformen" }

/-- C4 witness: the no-empty-recommended-term facts evaluated on concrete
stores. -/
theorem C4_witness :
    (rawFullEntry.terme_recomanat ≠ "") ∧
    (csvDemoEntry.terme_recomanat ≠ "") ∧
    (conformenRecord.terme_recomanat ≠ "") := by
  refine ⟨?_, ?_, ?_⟩
  · exact C4_no_empty_recommended_term.1 [rawFull] rawFullEntry (by decide)
  · exact C4_no_empty_recommended_term.2.1 [csvDemoRow] csvDemoEntry (by decide)
  · exact C4_no_empty_recommended_term.2.2 [conformenEntry] (by decide)
      ("conformen", conformenRecord) (by decide)

/-- C7 witness: the key of the binding built from "Conformen" is its
lowercased, stripped form. -/
theorem C7_witness :
    ("conformen" : String) = pyStrip (pyLower "Conformen") ∧
    dictGet ([] ++ [("k", conformenRecord)]) "k" = some conformenRecord := by
  constructor
  · exact C7_lookup_keys_lowercased_last_wins.1 [conformenEntry]
      ("conformen", conformenRecord) (by decide)
  · exact C7_lookup_keys_lowercased_last_wins.2.1 [] "k" conformenRecord

/-- A raw entry that is invalid: its recommended term trims to empty. -/
def rawInvalid : RawEntry :=
  { id := "bad"
    terme_recomanat := "   "
    variants_no_normatives := .list ["whatever"]
    context_d_us := "ctx"
    categoria := ""
    ambit := ""
    notes_linguistiques := ""
    font := ""
    exemples_correctes := []
    exemples_incorrectes := [] }

/-- A previously published generation. -/
def demoState : ServiceState :=
  { index := some ["old text"]
    glossari := some [conformenEntry]
    variants_lookup := some (build_variants_lookup [conformenEntry]) }

/-- C8: a rebuild whose input normalizes to zero usable entries returns
the structured failure (success=false with a populated message) instead of
an unhandled fault, and any failing rebuild leaves the published
generation unchanged. -/
theorem C8_failed_rebuild_structured_and_preserving :
    (∀ (glossary_data : List RawEntry),
      (prepare_glossary_for_vectorization glossary_data).1 = [] →
      ∃ msg, build_index_from_data glossary_data = .error msg ∧ msg ≠ "") ∧
    (∀ (st : ServiceState) (glossary_data : List RawEntry) (e : HttpError),
      (vectorize st glossary_data).2 = .error e →
      (vectorize st glossary_data).1 = st) := by
  constructor
  · intro glossary_data h
    refine ⟨"No valid glossary entries to vectorize", ?_, by decide⟩
    unfold build_index_from_data
    simp [h]
  · intro st glossary_data e h
    unfold vectorize at h ⊢
    by_cases hemp : glossary_data.isEmpty
    · simp [hemp]
    · simp only [hemp, Bool.false_eq_true, if_false] at h ⊢
      cases hb : build_index_from_data glossary_data with
      | error msg => simp [hb]
      | ok pair =>
        rw [hb] at h
        simp at h

/-- C8 witness: an all-invalid non-empty glossary fails the rebuild with a
populated message and leaves the previous generation serving. -/
theorem C8_witness :
    ((prepare_glossary_for_vectorization [rawInvalid]).1 = []) ∧
    (∃ msg, build_index_from_data [rawInvalid] = .error msg ∧ msg ≠ "") ∧
    ((vectorize demoState [rawInvalid]).1 = demoState) := by
  refine ⟨by decide, ?_, ?_⟩
  · exact C8_failed_rebuild_structured_and_preserving.1 [rawInvalid] (by decide)
  · exact C8_failed_rebuild_structured_and_preserving.2 demoState [rawInvalid]
      { status := 500, detail := "Vectorization failed: No valid glossary entries to vectorize" }
      (by rfl)

/-- C9: the publish step of `vectorize` is three independent global
assignments, not one atomic swap: the state reached after the first
assignment pairs the new index with the old canonical store — a partial
rebuild distinct from both the old and the fully published generation. -/
theorem C9_publish_is_three_assignments_partial_state_observable :
    (publishTrace demoState [collidingEntry] ["new text"]).get? 1 =
      some { index := some ["new text"]
             glossari := some [conformenEntry]
             variants_lookup := some (build_variants_lookup [conformenEntry]) } ∧
    ([conformenEntry] : List GlossEntry) ≠ [collidingEntry] ∧
    (publishTrace demoState [collidingEntry] ["new text"]).get? 3 =
      some { index := some ["new text"]
             glossari := some [collidingEntry]
             variants_lookup := some (build_variants_lookup [collidingEntry]) } ∧
    (vectorize demoState [rawFull]).1 =
      (publishAssignments (prepare_glossary_for_vectorization [rawFull]).1
        (prepare_glossary_for_vectorization [rawFull]).2).foldl
          (fun s f => f s) demoState := by
  refine ⟨by decide, by decide, by decide, by decide⟩

/-- C10: the readiness guards use Python truthiness, so an empty-but-built
artifact is rejected exactly like an absent one: an empty variants lookup
makes `/detect-candidates` answer 503, and an empty canonical store makes
`/search` answer 503, instead of returning empty results. -/
theorem C10_empty_artifacts_rejected_as_not_ready :
    (∀ (nlp : String → List SpacyToken) (text : String) (cw : Nat),
      detectEndpoint (some nlp) (some []) text cw =
        detectEndpoint (some nlp) none text cw ∧
      detectEndpoint (some nlp) (some []) text cw =
        .error { status := 503
                 detail := "Lookup de variants no disponible. Vectoritzeu el glossari primer." }) ∧
    (∀ (ix : IndexModel) (candidates : List String) (k : Nat) (threshold : ℚ),
      searchEndpoint true (some ix) (some []) candidates k threshold =
        searchEndpoint true (some ix) none candidates k threshold ∧
      searchEndpoint true (some ix) (some []) candidates k threshold =
        .error { status := 503
                 detail := "Índex no disponible. Utilitzeu l'endpoint /vectorize per crear l'índex primer." }) := by
  constructor
  · intro nlp text cw
    exact ⟨rfl, rfl⟩
  · intro ix candidates k threshold
    exact ⟨rfl, rfl⟩

/-- The glossary entry of end-to-end scenario 1, as submitted to the
dynamic builder. -/
def formarRaw : RawEntry :=
  { id := "V006"
    terme_recomanat := "formar"
    variants_no_normatives := .list ["conformar"]
    context_d_us := ""
    categoria := "verb"
    ambit := ""
    notes_linguistiques := ""
    font := ""
    exemples_correctes := []
    exemples_incorrectes := [] }

/-- The tokenization of "les entitats que conformen el sector", with the
lemmatizer mapping "conformen" to "conformar". -/
def conformenDoc : List SpacyToken :=
  [ { text := "les", lemma_ := "el", pos := "DET", is_punct := false, is_space := false },
    { text := "entitats", lemma_ := "entitat", pos := "NOUN", is_punct := false, is_space := false },
    { text := "que", lemma_ := "que", pos := "PRON", is_punct := false, is_space := false },
    { text := "conformen", lemma_ := "conformar", pos := "VERB", is_punct := false, is_space := false },
    { text := "el", lemma_ := "el", pos := "DET", is_punct := false, is_space := false },
    { text := "sector", lemma_ := "sector", pos := "NOUN", is_punct := false, is_space := false } ]

/-- C2: in the single-token pass, an unclaimed, non-punctuation,
non-whitespace token is looked up by lowercased lemma first (a lemma hit
wins even when the raw text is also a key), then by raw lowercased text;
a hit claims the position and emits a candidate tagged with the token's
part-of-speech. On scenario 1 the full detector emits exactly one
candidate, at the position of "conformen", with recommended term
"formar". -/
theorem C2_single_token_lemma_precedence :
    (∀ (doc : List SpacyToken) (lookup : VariantsLookup) (cw : Nat)
       (st : DetState) (i : Nat) (token : SpacyToken),
      st.detected.contains i = false →
      token.is_punct = false → token.is_space = false →
      (∀ e, dictGet lookup (pyLower token.lemma_) = some e →
        tokenStep doc lookup cw st i token =
          { detected := st.detected ++ [i]
            candidates := st.candidates ++
              [{ term := token.text
                 lemma_ := pyLower token.lemma_
                 position := i
                 context := sliceText doc (i - cw) (min doc.length (i + 1 + cw))
                 pos_tag := token.pos
                 glossary_id := e.id
                 terme_recomanat := e.terme_recomanat
                 categoria := e.categoria
                 source := "nlp" }] }) ∧
      (dictGet lookup (pyLower token.lemma_) = none →
        ∀ e, dictGet lookup (pyLower token.text) = some e →
        tokenStep doc lookup cw st i token =
          { detected := st.detected ++ [i]
            candidates := st.candidates ++
              [{ term := token.text
                 lemma_ := pyLower token.text
                 position := i
                 context := sliceText doc (i - cw) (min doc.length (i + 1 + cw))
                 pos_tag := token.pos
                 glossary_id := e.id
                 terme_recomanat := e.terme_recomanat
                 categoria := e.categoria
                 source := "nlp" }] })) ∧
    detect_candidates conformenDoc
        (build_variants_lookup (prepare_glossary_for_vectorization [formarRaw]).1) 3 =
      [{ term := "conformen"
         lemma_ := "conformar"
         position := 3
         context := "les entitats que conformen el sector"
         pos_tag := "VERB"
         glossary_id := "V006"
         terme_recomanat := "formar"
         categoria := "verb"
         source := "nlp" }] := by
  constructor
  · intro doc lookup cw st i token hdet hpunct hspace
    have hdet' : i ∉ st.detected := by simpa using hdet
    constructor
    · intro e he
      simp [tokenStep, hdet', hpunct, hspace, he]
    · intro hlem e he
      simp [tokenStep, hdet', hpunct, hspace, hlem, he]
  · decide

/-- C2 witness: the lemma-precedence step facts evaluated on the
"conformen" token, with both its lemma and its raw text present as keys
(the lemma's record wins). -/
theorem C2_witness :
    (tokenStep conformenDoc
        [("conformar", conformenRecord), ("conformen", conformenRecord)] 3
        ⟨[], []⟩ 3 { text := "conformen", lemma_ := "conformar", pos := "VERB",
                     is_punct := false, is_space := false } =
      { detected := [] ++ [3]
        candidates := [] ++
          [{ term := "conformen"
             lemma_ := pyLower "conformar"
             position := 3
             context := sliceText conformenDoc (3 - 3) (min conformenDoc.length (3 + 1 + 3))
             pos_tag := "VERB"
             glossary_id := conformenRecord.id
             terme_recomanat := conformenRecord.terme_recomanat
             categoria := conformenRecord.categoria
             source := "nlp" }] }) := by
  exact (C2_single_token_lemma_precedence.1 conformenDoc
    [("conformar", conformenRecord), ("conformen", conformenRecord)] 3
    ⟨[], []⟩ 3 _ (by decide) (by decide) (by decide)).1 conformenRecord (by decide)

/-- The ghost record of the windows at which pass 1 emitted its
candidates: one `(start, size)` span per candidate, in emission order.
`MweSpansOk` states that the spans are the candidates' positions, that
every span is a multi-token window all of whose positions are claimed,
and that the emitted windows are pairwise disjoint. -/
def MweSpansOk (st : DetState) (spans : List (Nat × Nat)) : Prop :=
  spans.map Prod.fst = st.candidates.map (fun c => c.position) ∧
  (∀ p ∈ spans, 2 ≤ p.2 ∧ ∀ j < p.2, (p.1 + j) ∈ st.detected) ∧
  spans.Pairwise (fun p q => ∀ j < p.2, ∀ l < q.2, p.1 + j ≠ q.1 + l)

/-- One window step of pass 1 preserves the span invariant: a claimed
window is skipped, and a hit claims a window disjoint from everything
claimed before. -/
theorem mweStep_spans (doc : List SpacyToken) (lookup : VariantsLookup)
    (cw n : Nat) (hn : 2 ≤ n) (st : DetState) (i : Nat)
    (spans : List (Nat × Nat)) (h : MweSpansOk st spans) :
    ∃ spans', MweSpansOk (mweStep doc lookup cw n st i) spans' := by
  obtain ⟨h1, h2, h3⟩ := h
  unfold mweStep
  by_cases hcl : windowClaimed st.detected i n = true
  · rw [if_pos hcl]
    exact ⟨spans, h1, h2, h3⟩
  · rw [if_neg hcl]
    simp only [windowClaimed, List.any_eq_true, List.mem_range,
      not_exists, not_and] at hcl
    replace hcl : ∀ l < n, (i + l) ∉ st.detected := by
      intro l hl hmem'
      exact hcl l hl (by simpa using hmem')
    dsimp only
    split
    · exact ⟨spans, h1, h2, h3⟩
    · next entry _ =>
      refine ⟨spans ++ [(i, n)], ?_, ?_, ?_⟩
      · simp only [List.map_append, h1]
        rfl
      · intro p hp
        rcases List.mem_append.mp hp with hmem | hmem
        · exact ⟨(h2 p hmem).1,
            fun j hj => List.mem_append_left _ ((h2 p hmem).2 j hj)⟩
        · simp only [List.mem_singleton] at hmem
          subst hmem
          refine ⟨hn, fun j hj => List.mem_append_right _ ?_⟩
          simp only [List.mem_map, List.mem_range]
          exact ⟨j, hj, rfl⟩
      · rw [List.pairwise_append]
        refine ⟨h3, List.pairwise_singleton _ _, ?_⟩
        intro p hp q hq
        simp only [List.mem_singleton] at hq
        subst hq
        intro j hj l hl heq
        have hmem : p.1 + j ∈ st.detected := (h2 p hp).2 j hj
        exact hcl l hl (heq ▸ hmem)

/-- Pass 1 as a whole preserves the span invariant, window sizes 4, 3, 2
being all multi-token. -/
theorem mwePass_spans (doc : List SpacyToken) (lookup : VariantsLookup)
    (cw : Nat) (st : DetState) (h : ∃ spans, MweSpansOk st spans) :
    ∃ spans, MweSpansOk (mwePass doc lookup cw st) spans := by
  have inner : ∀ (n : Nat), 2 ≤ n → ∀ (st : DetState),
      (∃ spans, MweSpansOk st spans) →
      ∃ spans, MweSpansOk
        ((List.range (doc.length + 1 - n)).foldl (mweStep doc lookup cw n) st)
        spans := by
    intro n hn st hst
    refine foldl_preserve (P := fun st => ∃ spans, MweSpansOk st spans)
      _ ?_ _ st hst
    intro st i hst'
    obtain ⟨spans, hsp⟩ := hst'
    exact mweStep_spans doc lookup cw n hn st i spans hsp
  rw [show mwePass doc lookup cw st =
      (List.range (doc.length + 1 - 2)).foldl (mweStep doc lookup cw 2)
        ((List.range (doc.length + 1 - 3)).foldl (mweStep doc lookup cw 3)
          ((List.range (doc.length + 1 - 4)).foldl (mweStep doc lookup cw 4) st))
    from rfl]
  exact inner 2 (by norm_num) _ (inner 3 (by norm_num) _ (inner 4 (by norm_num) _ h))

/-- The canonical entry carrying the 3-gram variant "fet i fet". -/
def fetMweEntry : GlossEntry :=
  { id := "M1"
    terme_recomanat := "de fet"
    variants_no_normatives := ["fet i fet"]
    context_d_us := ""
    categoria := "loc"
    ambit := ""
    comentari := ""
    font := ""
    exemple_1 := ""
    exemple_2 := ""
    exemple_3 := ""
    exemple_incorrecte_1 := ""
    exemple_incorrecte_2 := "" }

/-- The canonical entry carrying the single-token variant "fet". -/
def fetSingleEntry : GlossEntry :=
  { id := "S1"
    terme_recomanat := "esdeveniment"
    variants_no_normatives := ["fet"]
    context_d_us := ""
    categoria := "nom"
    ambit := ""
    comentari := ""
    font := ""
    exemple_1 := ""
    exemple_2 := ""
    exemple_3 := ""
    exemple_incorrecte_1 := ""
    exemple_incorrecte_2 := "" }

/-- The tokenization of "fet i fet". -/
def fetDoc : List SpacyToken :=
  [ { text := "fet", lemma_ := "fet", pos := "NOUN", is_punct := false, is_space := false },
    { text := "i", lemma_ := "i", pos := "CCONJ", is_punct := false, is_space := false },
    { text := "fet", lemma_ := "fet", pos := "NOUN", is_punct := false, is_space := false } ]

/-- C1: in the multi-word pass, a window any of whose positions is already
claimed is skipped unchanged; over any input and lookup the emitted
multi-word candidates sit at the starts of claimed, pairwise-disjoint
multi-token windows; and on "fet i fet" with a lookup carrying both the
3-gram "fet i fet" and the 1-gram "fet", the detector emits exactly one
candidate — the 3-gram — for that span. -/
theorem C1_multiword_longest_first_nonoverlapping :
    (∀ (doc : List SpacyToken) (lookup : VariantsLookup) (cw n : Nat)
       (st : DetState) (i : Nat),
      windowClaimed st.detected i n = true → mweStep doc lookup cw n st i = st) ∧
    (∀ (doc : List SpacyToken) (lookup : VariantsLookup) (cw : Nat),
      ∃ spans, MweSpansOk (mwePass doc lookup cw ⟨[], []⟩) spans) ∧
    detect_candidates fetDoc
        (build_variants_lookup [fetMweEntry, fetSingleEntry]) 3 =
      [{ term := "fet i fet"
         lemma_ := "fet i fet"
         position := 0
         context := "fet i fet"
         pos_tag := "MWE"
         glossary_id := "M1"
         terme_recomanat := "de fet"
         categoria := "loc"
         source := "nlp" }] := by
  refine ⟨?_, ?_, by decide⟩
  · intro doc lookup cw n st i h
    unfold mweStep
    rw [if_pos h]
  · intro doc lookup cw
    refine mwePass_spans doc lookup cw ⟨[], []⟩ ⟨[], rfl, ?_, List.Pairwise.nil⟩
    intro p hp
    exact absurd hp (List.not_mem_nil p)

/-- C1 witness: the skip rule and the span invariant evaluated on the
"fet i fet" scenario. -/
theorem C1_witness :
    mweStep fetDoc (build_variants_lookup [fetMweEntry, fetSingleEntry])
        3 2 ⟨[0], []⟩ 0 = ⟨[0], []⟩ ∧
    (∃ spans, MweSpansOk
      (mwePass fetDoc (build_variants_lookup [fetMweEntry, fetSingleEntry]) 3
        ⟨[], []⟩) spans) := by
  constructor
  · exact C1_multiword_longest_first_nonoverlapping.1 fetDoc
      (build_variants_lookup [fetMweEntry, fetSingleEntry]) 3 2 ⟨[0], []⟩ 0 (by decide)
  · exact C1_multiword_longest_first_nonoverlapping.2.1 fetDoc
      (build_variants_lookup [fetMweEntry, fetSingleEntry]) 3

end Aina
